import Mathlib

/-
Verification of the energy-monitoring pipeline (ripkayato/ai-energy-efficiency).

Shallow embedding of the computational core of the repository:
  * src/backend/ai/ai_model.py      (AIModel.detect_anomalies, AIModel.train_model)
  * src/backend/etl/etl_processor.py (ETLProcessor.normalize_data)
  * src/backend/kpi/kpi_calculator.py (KPICalculator.calculate_enpi,
      calculate_excess_consumption, calculate_economic_effect,
      calculate_efficiency, get_all_kpis)
  * src/backend/auth/auth.py        (AuthModule.get_current_user and helpers)

Numeric values are modelled as exact rationals (the Python code uses floats;
the contracts under scrutiny are about the ideal arithmetic the code spells
out).  A pandas DataFrame is modelled as a record of column-presence flags
plus a list of rows, since the Python code checks column presence (`'c' in
df.columns`) before touching a column.  A missing numeric cell (NaN) is
modelled as `Option.none` where the code's NaN handling matters.
-/

/-- Python's built-in `round` on an exact value: round half to even
(banker's rounding), returning an integer. -/
def pyRoundInt (q : ℚ) : ℤ :=
  let f : ℤ := ⌊q⌋
  if q - f < 1/2 then f
  else if 1/2 < q - f then f + 1
  else if f % 2 = 0 then f else f + 1

/-- Python's `round(q, n)` for `n` decimal digits. -/
def roundTo (n : ℕ) (q : ℚ) : ℚ :=
  (pyRoundInt (q * 10 ^ n) : ℚ) / 10 ^ n

/- ------------------------------------------------------------------
Anomaly detector: AIModel.detect_anomalies (src/backend/ai/ai_model.py,
lines 113-174).
------------------------------------------------------------------ -/

/-- Row of the DataFrame passed to `detect_anomalies`.  Only the columns the
function reads are modelled.  A field is meaningful only when the matching
column-presence flag of the frame is set; the code never reads a column
without checking its presence first. -/
structure ARow where
  power_kwh : ℚ
  y : ℚ
  load_percent : ℚ
  efficiency : ℚ
deriving DecidableEq

/-- DataFrame for `detect_anomalies`: column-presence flags plus rows. -/
structure AFrame where
  has_power_kwh : Bool
  has_y : Bool
  has_load_percent : Bool
  has_efficiency : Bool
  rows : List ARow
deriving DecidableEq

/-- Value of the power column the code selects: `power_kwh` when that column
exists, else the `y` column (lines 119-125). -/
def powerVal (df : AFrame) (r : ARow) : ℚ :=
  if df.has_power_kwh then r.power_kwh else r.y

/-- Batch mean of the selected power column (`df[power_col].mean()`,
line 129). -/
def meanQ (df : AFrame) : ℚ :=
  ((df.rows.map (powerVal df)).sum) / (df.rows.length : ℚ)

/-- Square of the batch standard deviation computed by
`df[power_col].std()` (line 130): pandas uses the sample variance with
divisor `n - 1` (ddof = 1).  For a single row pandas yields NaN and the
function then flags nothing; here the rational division by zero yields 0
and the `varQ df = 0` early return produces the same empty output. -/
def varQ (df : AFrame) : ℚ :=
  ((df.rows.map (fun r => (powerVal df r - meanQ df) ^ 2)).sum) /
    ((df.rows.length : ℚ) - 1)

/-- Exact decision of `x < m - t * sqrt v` over the rationals (`v ≥ 0`),
avoiding the irrational square root: for `t ≥ 0` the test is
`sqrt (t² v) < m - x`, i.e. `0 ≤ m - x ∧ t² v < (m - x)²`; for `t < 0` it
is `x - m < sqrt (t² v)`, i.e. `¬(0 ≤ x - m ∧ t² v ≤ (x - m)²)`.
The equivalence with the real-number test is proved below
(`stdBelow_iff_real`). -/
def stdBelow (m v t x : ℚ) : Bool :=
  if 0 ≤ t then decide (0 ≤ m - x ∧ t ^ 2 * v < (m - x) ^ 2)
  else decide (¬ (0 ≤ x - m ∧ t ^ 2 * v ≤ (x - m) ^ 2))

/-- Exact decision of `m + t * sqrt v < x` over the rationals (`v ≥ 0`);
see `stdBelow`. -/
def stdAbove (m v t x : ℚ) : Bool :=
  if 0 ≤ t then decide (0 ≤ x - m ∧ t ^ 2 * v < (x - m) ^ 2)
  else decide (¬ (0 ≤ m - x ∧ t ^ 2 * v ≤ (m - x) ^ 2))

/-- The `is_anomaly` flag of lines 137-138: the value lies below
`mean - threshold_std * std` or above `mean + threshold_std * std`. -/
def isAnomB (df : AFrame) (t : ℚ) (r : ARow) : Bool :=
  stdBelow (meanQ df) (varQ df) t (powerVal df r) ||
  stdAbove (meanQ df) (varQ df) t (powerVal df r)

/-- Whether any row of the batch is flagged (`df['is_anomaly'].any()`,
line 156). -/
def anyAnomB (df : AFrame) (t : ℚ) : Bool :=
  df.rows.any (isAnomB df t)

/-- Cause label of a row after the masked assignments of lines 149-158.
The source initialises `cause = 'unknown'` and then performs a sequence of
`df.loc[mask, 'cause'] = label` writes; a later write overwrites an earlier
one on rows matched by both masks.  The sequence is: `overload`
(load > 95), `low_efficiency` (load < 50 and power above the mean), then —
when the `efficiency` column exists — `equipment_wear` (efficiency < 80),
else — when some row is flagged — `high_consumption`
(power > mean * 1.2). -/
def causeOf (df : AFrame) (t : ℚ) (r : ARow) : String :=
  let anom := isAnomB df t r
  let c0 := "unknown"
  let c1 := if df.has_load_percent && anom && decide (95 < r.load_percent)
    then "overload" else c0
  let c2 := if df.has_load_percent && anom && decide (r.load_percent < 50)
      && decide (meanQ df < powerVal df r)
    then "low_efficiency" else c1
  let c3 := if df.has_efficiency && anom && decide (r.efficiency < 80)
    then "equipment_wear" else c2
  let c4 := if !df.has_efficiency && anyAnomB df t && anom
      && decide (meanQ df * (12/10) < powerVal df r)
    then "high_consumption" else c3
  c4

/-- Output row of `detect_anomalies`: the selected rows with the derived
`power_kwh`, `excess_kwh` and `cause` columns (the original columns are
kept in `row`). -/
structure AnomEntry where
  row : ARow
  power_kwh : ℚ
  excess_kwh : ℚ
  cause : String
deriving DecidableEq

/-- AIModel.detect_anomalies (lines 113-174): empty input or no power
column gives an empty result; zero standard deviation gives an empty
result (line 132; `std = 0` iff the sample variance is 0); otherwise the
rows flagged by `is_anomaly` are returned, with `excess_kwh = power - mean`
for flagged rows above the mean and 0 otherwise (lines 141-146), and the
cause label of lines 149-158. -/
def detect_anomalies (df : AFrame) (t : ℚ) : List AnomEntry :=
  if df.rows.isEmpty then []
  else if !(df.has_power_kwh || df.has_y) then []
  else if varQ df = 0 then []
  else
    (df.rows.filter (isAnomB df t)).map (fun r =>
      ⟨r, powerVal df r,
       if meanQ df < powerVal df r then powerVal df r - meanQ df else 0,
       causeOf df t r⟩)

/-- The batch `power_kwh = [100, 100, 100, 100, 500]` of the spec's
numerical test case. -/
def f5 : AFrame :=
  ⟨true, false, false, false,
   [⟨100, 0, 0, 0⟩, ⟨100, 0, 0, 0⟩, ⟨100, 0, 0, 0⟩, ⟨100, 0, 0, 0⟩,
    ⟨500, 0, 0, 0⟩]⟩

/-- A clean reading: power 100 kWh, load 50 %, efficiency 50. -/
def row100 : ARow := ⟨100, 0, 50, 50⟩

/-- A clean reading with overload-level load and low efficiency:
power 400 kWh, load 96 %, efficiency 96/400*100 = 24. -/
def r400 : ARow := ⟨400, 0, 96, 24⟩

/-- A batch of clean readings (power, load and efficiency columns all
present): ten baseline readings and one reading that is flagged anomalous
and matches both the overload rule (load 96 > 95) and the equipment-wear
rule (efficiency 24 < 80). -/
def cex1 : AFrame :=
  ⟨true, false, true, true,
   [row100, row100, row100, row100, row100, row100, row100, row100, row100,
    row100, r400]⟩

/- ------------------------------------------------------------------
Forecaster training: AIModel.train_model (src/backend/ai/ai_model.py,
lines 61-93).
------------------------------------------------------------------ -/

/-- Training DataFrame for `train_model`: presence of the `ds` and `y`
columns and the (timestamp, value) rows.  The guard of line 63 only looks
at emptiness and column presence. -/
structure TrainFrame where
  has_ds : Bool
  has_y : Bool
  rows : List (ℚ × ℚ)
deriving DecidableEq

/-- Observable outcome of a Python call: either an exception propagates out
or a value is returned. -/
inductive PyOutcome where
  | raised (exc : String)
  | returned (ok : Bool)
deriving DecidableEq

/-- AIModel.train_model (lines 61-93).  An empty frame or a frame missing
the `ds` or `y` column returns `False` (line 63-65).  The Prophet fit is
external; `fit_raises` abstracts whether `Prophet.fit` raises (it does on
histories of fewer than 2 rows) — any such exception is caught by the
`except` of lines 91-93 and converted to the return value `False`.  No
exception ever propagates out of the function. -/
def train_model (fit_raises : Bool) (df : TrainFrame) : PyOutcome :=
  if df.rows.isEmpty || !df.has_ds || !df.has_y then .returned false
  else if fit_raises then .returned false
  else .returned true

/- ------------------------------------------------------------------
Cleaner: ETLProcessor.normalize_data (src/backend/etl/etl_processor.py,
lines 51-81).
------------------------------------------------------------------ -/

/-- Row of the raw-data DataFrame.  `none` models a missing value (NaN);
a field is meaningful only when the frame's matching column flag is set. -/
structure NRow where
  timestamp : Option ℚ
  power_kwh : Option ℚ
  load_percent : Option ℚ
  temperature : Option ℚ
  installation_id : Option ℚ
  efficiency : Option ℚ
  specific_consumption : Option ℚ
deriving DecidableEq

/-- Raw-data DataFrame: column-presence flags plus rows. -/
structure NFrame where
  has_timestamp : Bool
  has_power_kwh : Bool
  has_load_percent : Bool
  has_temperature : Bool
  has_installation_id : Bool
  has_efficiency : Bool
  has_specific_consumption : Bool
  rows : List NRow
deriving DecidableEq

/-- Well-formedness of the DataFrame model: a field of a column that is not
present in the frame holds no value. -/
def NFrame.WF (df : NFrame) : Prop :=
  ∀ r ∈ df.rows,
    (df.has_timestamp = false → r.timestamp = none) ∧
    (df.has_power_kwh = false → r.power_kwh = none) ∧
    (df.has_load_percent = false → r.load_percent = none) ∧
    (df.has_temperature = false → r.temperature = none) ∧
    (df.has_installation_id = false → r.installation_id = none) ∧
    (df.has_efficiency = false → r.efficiency = none) ∧
    (df.has_specific_consumption = false → r.specific_consumption = none)

/-- Row kept by `df.dropna()` (line 57): no present column holds NaN. -/
def rowComplete (df : NFrame) (r : NRow) : Bool :=
  (!df.has_timestamp || r.timestamp.isSome) &&
  (!df.has_power_kwh || r.power_kwh.isSome) &&
  (!df.has_load_percent || r.load_percent.isSome) &&
  (!df.has_temperature || r.temperature.isSome) &&
  (!df.has_installation_id || r.installation_id.isSome) &&
  (!df.has_efficiency || r.efficiency.isSome) &&
  (!df.has_specific_consumption || r.specific_consumption.isSome)

/-- ETLProcessor.normalize_data (lines 51-81): return an empty frame
unchanged; drop rows with missing values; when the `load_percent` column
exists keep only `0 < load_percent` and then `load_percent ≤ 100`
(lines 60-62); when the `power_kwh` column exists keep only
`0 < power_kwh` (lines 64-65); when both columns exist derive
`efficiency = load_percent / power_kwh * 100` and
`specific_consumption = power_kwh / load_percent` (lines 72-78).
`Option.any p` is false on `none`, matching a pandas comparison against
NaN being False.  The timestamp conversion of lines 68-69 does not change
the value model. -/
def normalize_data (df : NFrame) : NFrame :=
  if df.rows.isEmpty then df
  else
    let rows1 := df.rows.filter (rowComplete df)
    let rows2 := if df.has_load_percent then
        (rows1.filter (fun r => r.load_percent.any (fun v => decide (0 < v)))).filter
          (fun r => r.load_percent.any (fun v => decide (v ≤ 100)))
      else rows1
    let rows3 := if df.has_power_kwh then
        rows2.filter (fun r => r.power_kwh.any (fun v => decide (0 < v)))
      else rows2
    let rows4 := if df.has_power_kwh && df.has_load_percent then
        rows3.map (fun r =>
          { r with
            efficiency := some (r.load_percent.getD 0 / r.power_kwh.getD 0 * 100),
            specific_consumption := some (r.power_kwh.getD 0 / r.load_percent.getD 0) })
      else rows3
    { df with
      rows := rows4,
      has_efficiency :=
        df.has_efficiency || (df.has_power_kwh && df.has_load_percent),
      has_specific_consumption :=
        df.has_specific_consumption || (df.has_power_kwh && df.has_load_percent) }

/- ------------------------------------------------------------------
KPI engine: KPICalculator (src/backend/kpi/kpi_calculator.py).
The store is modelled by the rows its trailing-window queries return:
`clean_data` rows, the `predicted_kwh` values of the `forecast` rows and
the `excess_kwh` values of the `anomalies` rows in the window.  SQL
aggregates over zero rows return NULL, which every call site coalesces
with `or 0`; the model's sums and averages over an empty list equal 0
accordingly.
------------------------------------------------------------------ -/

/-- Row of `clean_data` as read by the KPI queries. -/
structure CleanRow where
  power_kwh : ℚ
  load_percent : ℚ
  efficiency : ℚ
deriving DecidableEq

/-- Windowed query results the KPI calculator reads. -/
structure Database where
  clean_data : List CleanRow
  forecast : List ℚ
  anomalies_excess : List ℚ
deriving DecidableEq

/-- AVG(power_kwh) over the window. -/
def avg_power_kwh (db : Database) : ℚ :=
  ((db.clean_data.map (·.power_kwh)).sum) / (db.clean_data.length : ℚ)

/-- AVG(load_percent) over the window. -/
def avg_load_percent (db : Database) : ℚ :=
  ((db.clean_data.map (·.load_percent)).sum) / (db.clean_data.length : ℚ)

/-- Result dictionary of `calculate_enpi`. -/
structure EnpiResult where
  enpi : ℚ
  baseline_enpi : ℚ
  deviation_percent : ℚ
  period_days : ℕ
  avg_power : ℚ
  avg_load : ℚ
deriving DecidableEq

/-- KPICalculator.calculate_enpi (lines 43-90): `{}` (modelled `none`) when
the window holds zero rows (line 63); otherwise
`enpi = avg_power / avg_load` when `avg_load > 0` else 0 (lines 69-72),
`baseline_enpi = enpi * 1.05` (line 75), and
`deviation = (enpi - baseline) / baseline * 100` when `baseline > 0` else 0
(line 78); the dictionary values are rounded (lines 81-86). -/
def calculate_enpi (db : Database) (period_days : ℕ) : Option EnpiResult :=
  if db.clean_data.isEmpty then none
  else
    let avg_power := avg_power_kwh db
    let avg_load := avg_load_percent db
    let enpi := if 0 < avg_load then avg_power / avg_load else 0
    let baseline := enpi * (105/100)
    let dev := if 0 < baseline then (enpi - baseline) / baseline * 100 else 0
    some ⟨roundTo 4 enpi, roundTo 4 baseline, roundTo 2 dev, period_days,
      roundTo 2 avg_power, roundTo 2 avg_load⟩

/-- Result dictionary of `calculate_excess_consumption`. -/
structure ExcessResult where
  total_consumption_kwh : ℚ
  excess_kwh : ℚ
  excess_percent : ℚ
  anomalies_excess_kwh : ℚ
  period_days : ℕ
deriving DecidableEq

/-- KPICalculator.calculate_excess_consumption (lines 92-158).  The
truthiness test of line 129 on `SUM(predicted_kwh)` fails exactly when the
sum is NULL (no forecast rows) or 0; in the model both cases are
`db.forecast.sum = 0`.  With a usable forecast total `P`:
`excess = actual_total - P` and `percent = excess / P * 100` when `P > 0`
else 0 (lines 130-132); otherwise the fallback baseline is
`avg_actual * count` (lines 136-138).  The anomalies excess total is read
with `or 0` (line 147); the dictionary values are rounded to 2 digits. -/
def calculate_excess_consumption (db : Database) (period_days : ℕ) : ExcessResult :=
  let total_actual := (db.clean_data.map (·.power_kwh)).sum
  let avg_actual := if db.clean_data.isEmpty then 0 else avg_power_kwh db
  let total_predicted := db.forecast.sum
  let ep : ℚ × ℚ :=
    if total_predicted ≠ 0 then
      (total_actual - total_predicted,
       if 0 < total_predicted then
         (total_actual - total_predicted) / total_predicted * 100
       else 0)
    else
      let baseline := avg_actual * (db.clean_data.length : ℚ)
      (total_actual - baseline,
       if 0 < baseline then (total_actual - baseline) / baseline * 100 else 0)
  ⟨roundTo 2 total_actual, roundTo 2 ep.1, roundTo 2 ep.2,
   roundTo 2 db.anomalies_excess.sum, period_days⟩

/-- Result dictionary of `calculate_economic_effect`.  The zero branch of
lines 167-173 returns a dictionary without the annualized fields and
without the energy price, hence those fields are optional. -/
structure EconResult where
  savings_kwh : ℚ
  savings_rub : ℚ
  annual_savings_kwh : Option ℚ
  annual_savings_rub : Option ℚ
  optimization_percent : ℚ
  period_days : ℕ
  energy_price_per_kwh : Option ℚ
deriving DecidableEq

/-- Core of KPICalculator.calculate_economic_effect (lines 160-194), as a
function of the excess-consumption result it reads (`none` models the `{}`
a failed excess query produces).  When the excess data is missing or
`excess_kwh ≤ 0`, the zero dictionary of lines 168-173 is returned;
otherwise `savings_kwh = excess_kwh * optimization_percent / 100`,
`savings_rub = savings_kwh * price`, and the annual values multiply by
`365 / period_days` (lines 178-184), each rounded to 2 digits. -/
def economic_effect_core (excess_data : Option ExcessResult)
    (energy_price optimization_percent : ℚ) (period_days : ℕ) : EconResult :=
  match excess_data with
  | none => ⟨0, 0, none, none, optimization_percent, period_days, none⟩
  | some d =>
    if d.excess_kwh ≤ 0 then
      ⟨0, 0, none, none, optimization_percent, period_days, none⟩
    else
      let savings_kwh := d.excess_kwh * (optimization_percent / 100)
      let savings_rub := savings_kwh * energy_price
      let annual_kwh := savings_kwh * (365 / (period_days : ℚ))
      let annual_rub := annual_kwh * energy_price
      ⟨roundTo 2 savings_kwh, roundTo 2 savings_rub,
       some (roundTo 2 annual_kwh), some (roundTo 2 annual_rub),
       optimization_percent, period_days, some energy_price⟩

/-- KPICalculator.calculate_economic_effect (lines 160-194): feeds the
excess-consumption result of the same window into the core. -/
def calculate_economic_effect (db : Database)
    (energy_price optimization_percent : ℚ) (period_days : ℕ) : EconResult :=
  economic_effect_core (some (calculate_excess_consumption db period_days))
    energy_price optimization_percent period_days

/-- Result dictionary of `calculate_efficiency`. -/
structure EffResult where
  avg_efficiency : ℚ
  min_efficiency : ℚ
  max_efficiency : ℚ
  period_days : ℕ
deriving DecidableEq

/-- KPICalculator.calculate_efficiency (lines 196-229): AVG/MIN/MAX of
`efficiency` over the window, each NULL-coalesced with `or 0`
(lines 222-224) and rounded to 2 digits. -/
def calculate_efficiency (db : Database) (period_days : ℕ) : EffResult :=
  match db.clean_data.map (·.efficiency) with
  | [] => ⟨0, 0, 0, period_days⟩
  | e :: es =>
    ⟨roundTo 2 ((e :: es).sum / ((e :: es).length : ℚ)),
     roundTo 2 (es.foldl min e), roundTo 2 (es.foldl max e), period_days⟩

/-- Result dictionary of `get_all_kpis`, including the wall-clock
`timestamp` of line 239. -/
structure AllKpis where
  enpi : Option EnpiResult
  excess_consumption : ExcessResult
  efficiency : EffResult
  economic_effect : EconResult
  period_days : ℕ
  timestamp : ℚ
deriving DecidableEq

/-- KPICalculator.get_all_kpis (lines 231-240): the four KPI dictionaries
over the same window, the period, and `datetime.now().isoformat()` — the
wall-clock time of the call, passed here as `now`. -/
def get_all_kpis (db : Database) (energy_price : ℚ) (period_days : ℕ)
    (optimization_percent : ℚ) (now : ℚ) : AllKpis :=
  ⟨calculate_enpi db period_days,
   calculate_excess_consumption db period_days,
   calculate_efficiency db period_days,
   calculate_economic_effect db energy_price optimization_percent period_days,
   period_days, now⟩

/- ------------------------------------------------------------------
Auth gate: AuthModule (src/backend/auth/auth.py).
------------------------------------------------------------------ -/

/-- Row of the `users` table (the `email` and `role` columns are
nullable). -/
structure UserRow where
  username : String
  email : Option String
  hashed_password : String
  role : Option String
deriving DecidableEq

/-- The `User` object `get_current_user` returns. -/
structure AuthUser where
  username : String
  email : Option String
  role : String
deriving DecidableEq

/-- Payload of a JWT: the `sub` and `role` claims and the expiry. -/
structure TokenPayload where
  sub : Option String
  role : Option String
  exp : ℤ
deriving DecidableEq

/-- A JWT as data: its payload and the key it was signed with. -/
structure JwtToken where
  payload : TokenPayload
  key : String
deriving DecidableEq

/-- jwt.decode of line 114: the signature verifies iff the token was
signed with the expected secret, and the expiry must lie in the future;
otherwise a JWTError (modelled `none`). -/
def jwt_decode (secret : String) (now : ℤ) (tok : JwtToken) : Option TokenPayload :=
  if tok.key = secret && decide (now < tok.payload.exp) then some tok.payload
  else none

/-- AuthModule.get_user_from_db (lines 84-104): first row of the `users`
table matching the username. -/
def get_user_from_db (users : List UserRow) (username : String) : Option UserRow :=
  users.find? (fun u => u.username = username)

/-- Role defaulting of line 100: `row[3] if ... and row[3] else "user"` —
a NULL or empty role column falls back to `"user"`. -/
def roleOf (u : UserRow) : String :=
  match u.role with
  | some s => if s = "" then "user" else s
  | none => "user"

/-- AuthModule.get_current_user (lines 106-125): decode the token (401 on
signature failure or expiry, modelled `none`), require a `sub` claim, then
re-read the user from the store and build the returned `User` from the
store row — the token's `role` claim is never read. -/
def get_current_user (secret : String) (users : List UserRow) (now : ℤ)
    (tok : JwtToken) : Option AuthUser :=
  match jwt_decode secret now tok with
  | none => none
  | some payload =>
    match payload.sub with
    | none => none
    | some username =>
      match get_user_from_db users username with
      | none => none
      | some u => some ⟨u.username, u.email, roleOf u⟩

/- ------------------------------------------------------------------
Helper lemmas.
------------------------------------------------------------------ -/

/-- Rounding fixes zero. -/
lemma roundTo_zero (n : ℕ) : roundTo n 0 = 0 := by
  norm_num [roundTo, pyRoundInt]

/-- A list of nonnegative rationals with zero sum is all zeros. -/
lemma list_all_zero_of_sum_zero :
    ∀ (l : List ℚ), (∀ x ∈ l, 0 ≤ x) → l.sum = 0 → ∀ x ∈ l, x = 0 := by
  intro l
  induction l with
  | nil => simp
  | cons a l ih =>
    intro hpos hsum x hx
    have ha : 0 ≤ a := hpos a (by simp)
    have hl : 0 ≤ l.sum := List.sum_nonneg fun y hy => hpos y (by simp [hy])
    have hsum' : a + l.sum = 0 := by simpa using hsum
    have ha0 : a = 0 := by linarith
    have hlsum : l.sum = 0 := by linarith
    rcases List.mem_cons.mp hx with rfl | hx
    · exact ha0
    · exact ih (fun y hy => hpos y (by simp [hy])) hlsum x hx

/-- The sample variance the detector computes is nonnegative. -/
lemma varQ_nonneg (df : AFrame) : 0 ≤ varQ df := by
  unfold varQ
  rcases h : df.rows with _ | ⟨a, l⟩
  · simp [h]
  · apply div_nonneg
    · apply List.sum_nonneg
      intro x hx
      simp only [List.mem_map] at hx
      obtain ⟨r, _, rfl⟩ := hx
      positivity
    · simp only [List.length_cons]
      push_cast
      linarith [Nat.cast_nonneg (α := ℚ) l.length]

/-- Square-root comparison without the root, lower side. -/
lemma sqrt_lt_iff_nonneg {w a : ℝ} (hw : 0 ≤ w) :
    Real.sqrt w < a ↔ 0 ≤ a ∧ w < a ^ 2 := by
  constructor
  · intro h
    have ha : 0 ≤ a := le_trans (Real.sqrt_nonneg w) h.le
    exact ⟨ha, (Real.sqrt_lt hw ha).mp h⟩
  · rintro ⟨ha, h2⟩
    exact (Real.sqrt_lt hw ha).mpr h2

/-- Square-root comparison without the root, upper side. -/
lemma lt_sqrt_iff_not {w a : ℝ} : a < Real.sqrt w ↔ ¬ (0 ≤ a ∧ w ≤ a ^ 2) := by
  rw [← not_le, Real.sqrt_le_iff]

/-- Scaling a square root by a nonnegative factor. -/
lemma mul_sqrt_eq {t v : ℝ} (ht : 0 ≤ t) :
    t * Real.sqrt v = Real.sqrt (t ^ 2 * v) := by
  rw [Real.sqrt_mul (sq_nonneg t), Real.sqrt_sq ht]

/-- The rational test `stdBelow` decides the real inequality
`x < m - t * sqrt v`. -/
lemma stdBelow_iff_real (m v t x : ℚ) (hv : 0 ≤ v) :
    stdBelow m v t x = true ↔
      ((x : ℝ) < (m : ℝ) - (t : ℝ) * Real.sqrt ((v : ℚ) : ℝ)) := by
  have hw : (0 : ℝ) ≤ ((t : ℚ) : ℝ) ^ 2 * ((v : ℚ) : ℝ) := by
    have : (0 : ℝ) ≤ ((v : ℚ) : ℝ) := by exact_mod_cast hv
    positivity
  have c1 : (0 ≤ m - x) ↔ ((0 : ℝ) ≤ (m : ℝ) - (x : ℝ)) := by exact_mod_cast Iff.rfl
  have c2 : (t ^ 2 * v < (m - x) ^ 2) ↔
      (((t : ℚ) : ℝ) ^ 2 * ((v : ℚ) : ℝ) < ((m : ℝ) - (x : ℝ)) ^ 2) := by
    exact_mod_cast Iff.rfl
  have c3 : (0 ≤ x - m) ↔ ((0 : ℝ) ≤ (x : ℝ) - (m : ℝ)) := by exact_mod_cast Iff.rfl
  have c4 : (t ^ 2 * v ≤ (x - m) ^ 2) ↔
      (((t : ℚ) : ℝ) ^ 2 * ((v : ℚ) : ℝ) ≤ ((x : ℝ) - (m : ℝ)) ^ 2) := by
    exact_mod_cast Iff.rfl
  unfold stdBelow
  rcases le_or_lt 0 t with ht | ht
  · have htR : (0 : ℝ) ≤ ((t : ℚ) : ℝ) := by exact_mod_cast ht
    have key : ((x : ℝ) < (m : ℝ) - (t : ℝ) * Real.sqrt ((v : ℚ) : ℝ)) ↔
        Real.sqrt (((t : ℚ) : ℝ) ^ 2 * ((v : ℚ) : ℝ)) < (m : ℝ) - (x : ℝ) := by
      rw [← mul_sqrt_eq htR]
      constructor <;> intro h <;> linarith
    rw [if_pos ht, decide_eq_true_eq, c1, c2, key, sqrt_lt_iff_nonneg hw]
  · have htR : (0 : ℝ) ≤ -((t : ℚ) : ℝ) := by
      have h0 : ((t : ℚ) : ℝ) < 0 := by exact_mod_cast ht
      linarith
    have key : ((x : ℝ) < (m : ℝ) - (t : ℝ) * Real.sqrt ((v : ℚ) : ℝ)) ↔
        (x : ℝ) - (m : ℝ) < Real.sqrt (((t : ℚ) : ℝ) ^ 2 * ((v : ℚ) : ℝ)) := by
      have h1 : (-((t : ℚ) : ℝ)) * Real.sqrt ((v : ℚ) : ℝ) =
          Real.sqrt ((-((t : ℚ) : ℝ)) ^ 2 * ((v : ℚ) : ℝ)) := mul_sqrt_eq htR
      rw [neg_sq] at h1
      constructor <;> intro h <;> nlinarith [h1]
    rw [if_neg (not_le.mpr ht), decide_eq_true_eq, c3, c4, key, lt_sqrt_iff_not]

/-- The rational test `stdAbove` decides the real inequality
`m + t * sqrt v < x`. -/
lemma stdAbove_iff_real (m v t x : ℚ) (hv : 0 ≤ v) :
    stdAbove m v t x = true ↔
      ((m : ℝ) + (t : ℝ) * Real.sqrt ((v : ℚ) : ℝ) < (x : ℝ)) := by
  have hw : (0 : ℝ) ≤ ((t : ℚ) : ℝ) ^ 2 * ((v : ℚ) : ℝ) := by
    have : (0 : ℝ) ≤ ((v : ℚ) : ℝ) := by exact_mod_cast hv
    positivity
  have c1 : (0 ≤ x - m) ↔ ((0 : ℝ) ≤ (x : ℝ) - (m : ℝ)) := by exact_mod_cast Iff.rfl
  have c2 : (t ^ 2 * v < (x - m) ^ 2) ↔
      (((t : ℚ) : ℝ) ^ 2 * ((v : ℚ) : ℝ) < ((x : ℝ) - (m : ℝ)) ^ 2) := by
    exact_mod_cast Iff.rfl
  have c3 : (0 ≤ m - x) ↔ ((0 : ℝ) ≤ (m : ℝ) - (x : ℝ)) := by exact_mod_cast Iff.rfl
  have c4 : (t ^ 2 * v ≤ (m - x) ^ 2) ↔
      (((t : ℚ) : ℝ) ^ 2 * ((v : ℚ) : ℝ) ≤ ((m : ℝ) - (x : ℝ)) ^ 2) := by
    exact_mod_cast Iff.rfl
  unfold stdAbove
  rcases le_or_lt 0 t with ht | ht
  · have htR : (0 : ℝ) ≤ ((t : ℚ) : ℝ) := by exact_mod_cast ht
    have key : ((m : ℝ) + (t : ℝ) * Real.sqrt ((v : ℚ) : ℝ) < (x : ℝ)) ↔
        Real.sqrt (((t : ℚ) : ℝ) ^ 2 * ((v : ℚ) : ℝ)) < (x : ℝ) - (m : ℝ) := by
      rw [← mul_sqrt_eq htR]
      constructor <;> intro h <;> linarith
    rw [if_pos ht, decide_eq_true_eq, c1, c2, key, sqrt_lt_iff_nonneg hw]
  · have htR : (0 : ℝ) ≤ -((t : ℚ) : ℝ) := by
      have h0 : ((t : ℚ) : ℝ) < 0 := by exact_mod_cast ht
      linarith
    have key : ((m : ℝ) + (t : ℝ) * Real.sqrt ((v : ℚ) : ℝ) < (x : ℝ)) ↔
        (m : ℝ) - (x : ℝ) < Real.sqrt (((t : ℚ) : ℝ) ^ 2 * ((v : ℚ) : ℝ)) := by
      have h1 : (-((t : ℚ) : ℝ)) * Real.sqrt ((v : ℚ) : ℝ) =
          Real.sqrt ((-((t : ℚ) : ℝ)) ^ 2 * ((v : ℚ) : ℝ)) := mul_sqrt_eq htR
      rw [neg_sq] at h1
      constructor <;> intro h <;> nlinarith [h1]
    rw [if_neg (not_le.mpr ht), decide_eq_true_eq, c3, c4, key, lt_sqrt_iff_not]

/-- When the sample variance is zero every value equals the batch mean. -/
lemma powerVal_eq_mean_of_varQ_zero (df : AFrame) (hv : varQ df = 0) :
    ∀ r ∈ df.rows, powerVal df r = meanQ df := by
  intro r hr
  rcases h : df.rows with _ | ⟨a, l⟩
  · rw [h] at hr
    simp at hr
  · by_cases hl : l = []
    · subst hl
      rw [h] at hr
      simp at hr
      subst hr
      unfold meanQ
      rw [h]
      simp
    · have hlen : 2 ≤ df.rows.length := by
        rw [h]
        simp only [List.length_cons]
        have : 1 ≤ l.length := List.length_pos.mpr hl
        omega
      have hd : ((df.rows.length : ℚ) - 1) ≠ 0 := by
        have h2 : (2 : ℚ) ≤ (df.rows.length : ℚ) := by exact_mod_cast hlen
        linarith
      have hsum : (df.rows.map (fun s => (powerVal df s - meanQ df) ^ 2)).sum = 0 := by
        unfold varQ at hv
        rcases div_eq_zero_iff.mp hv with h0 | h0
        · exact h0
        · exact absurd h0 hd
      have hall := list_all_zero_of_sum_zero _
        (by
          intro x hx
          simp only [List.mem_map] at hx
          obtain ⟨s, _, rfl⟩ := hx
          positivity) hsum
      have h2 : (powerVal df r - meanQ df) ^ 2 = 0 :=
        hall _ (List.mem_map_of_mem _ hr)
      have h3 := pow_eq_zero_iff (n := 2) (by norm_num) |>.mp h2
      linarith [h3]

/-- A value equal to the batch mean is never flagged when the variance is
zero. -/
lemma isAnomB_false_at_mean (df : AFrame) (t : ℚ) (r : ARow)
    (hp : powerVal df r = meanQ df) (hv : varQ df = 0) :
    isAnomB df t r = false := by
  unfold isAnomB stdBelow stdAbove
  rw [hp, hv]
  split_ifs <;> simp

/-- C6: `detect_anomalies` returns exactly the readings whose `power_kwh`
lies outside the closed band `[mean - t*std, mean + t*std]` (`std` being
the sample standard deviation of the batch, the square root of `varQ`); a
zero standard deviation yields an empty result rather than an error; and
each returned entry carries `excess_kwh = power_kwh - mean` when its power
is above the mean and `excess_kwh = 0` at or below the mean. -/
theorem C6_detect_anomalies_band (df : AFrame) (t : ℚ)
    (h : df.has_power_kwh = true) :
    ((detect_anomalies df t).map AnomEntry.row = df.rows.filter (isAnomB df t)) ∧
    (∀ r : ARow, isAnomB df t r = true ↔
      ((r.power_kwh : ℝ) < (meanQ df : ℝ) - (t : ℝ) * Real.sqrt ((varQ df : ℝ)) ∨
       (meanQ df : ℝ) + (t : ℝ) * Real.sqrt ((varQ df : ℝ)) < (r.power_kwh : ℝ))) ∧
    (varQ df = 0 → detect_anomalies df t = []) ∧
    (∀ e ∈ detect_anomalies df t,
      e.excess_kwh = if meanQ df < e.power_kwh then e.power_kwh - meanQ df else 0) := by
  have hvnn := varQ_nonneg df
  refine ⟨?_, ?_, ?_, ?_⟩
  · by_cases he : df.rows.isEmpty
    · have hnil : df.rows = [] := List.isEmpty_iff.mp he
      simp [detect_anomalies, he, hnil]
    · by_cases hv : varQ df = 0
      · have hfil : df.rows.filter (isAnomB df t) = [] := by
          apply List.filter_eq_nil_iff.mpr
          intro a ha
          simp [isAnomB_false_at_mean df t a
            (powerVal_eq_mean_of_varQ_zero df hv a ha) hv]
        simp [detect_anomalies, he, hv, hfil]
      · simp only [detect_anomalies, he, hv, h, Bool.true_or, Bool.not_true,
          Bool.false_eq_true, if_false, ite_false]
        rw [List.map_map]
        exact List.map_id' _
  · intro r
    unfold isAnomB
    rw [Bool.or_eq_true, stdBelow_iff_real _ _ _ _ hvnn,
      stdAbove_iff_real _ _ _ _ hvnn,
      show powerVal df r = r.power_kwh from by simp [powerVal, h]]
  · intro hv
    simp [detect_anomalies, hv]
  · intro e he
    unfold detect_anomalies at he
    split_ifs at he
    · simp at he
    · simp at he
    · simp at he
    · rw [List.mem_map] at he
      obtain ⟨r, hr, rfl⟩ := he
      rfl

/-- Witness for C6 at the concrete batch `f5`: the hypothesis (the
`power_kwh` column is present) holds and the band characterisation applies
to the reading with value 500. -/
theorem C6_detect_anomalies_band_witness :
    f5.has_power_kwh = true ∧
    (isAnomB f5 2 ⟨500, 0, 0, 0⟩ = true ↔
      (((500 : ℚ) : ℝ) < (meanQ f5 : ℝ) - ((2 : ℚ) : ℝ) * Real.sqrt ((varQ f5 : ℝ)) ∨
       (meanQ f5 : ℝ) + ((2 : ℚ) : ℝ) * Real.sqrt ((varQ f5 : ℝ)) < ((500 : ℚ) : ℝ))) :=
  ⟨rfl, (C6_detect_anomalies_band f5 2 rfl).2.1 ⟨500, 0, 0, 0⟩⟩

/-- Mean of the `cex1` batch. -/
lemma meanQ_cex1 : meanQ cex1 = 1400 / 11 := by
  norm_num [meanQ, cex1, row100, r400, powerVal]

/-- Sample variance of the `cex1` batch. -/
lemma varQ_cex1 : varQ cex1 = 990000 / 121 := by
  norm_num [varQ, meanQ, cex1, row100, r400, powerVal]

/-- The baseline readings of `cex1` are not flagged. -/
lemma isAnomB_cex1_row100 : isAnomB cex1 2 row100 = false := by
  norm_num [isAnomB, stdBelow, stdAbove, meanQ, varQ, powerVal, row100, r400,
    cex1]

/-- The reading `r400` of `cex1` is flagged anomalous. -/
lemma isAnomB_cex1_r400 : isAnomB cex1 2 r400 = true := by
  norm_num [isAnomB, stdBelow, stdAbove, meanQ, varQ, powerVal, row100, r400,
    cex1]

/-- Only `r400` survives the anomaly filter on `cex1`. -/
lemma filter_cex1 : cex1.rows.filter (isAnomB cex1 2) = [r400] := by
  rw [show cex1.rows = [row100, row100, row100, row100, row100, row100, row100,
    row100, row100, row100, r400] from rfl]
  simp [List.filter, isAnomB_cex1_row100, isAnomB_cex1_r400]

/-- The cause label the code computes for `r400`. -/
lemma causeOf_cex1_r400 : causeOf cex1 2 r400 = "equipment_wear" := by
  simp only [causeOf, isAnomB_cex1_r400,
    show cex1.has_load_percent = true from rfl,
    show cex1.has_efficiency = true from rfl,
    show r400.load_percent = 96 from rfl,
    show r400.efficiency = 24 from rfl]
  norm_num

/-- Full output of the detector on `cex1`. -/
lemma detect_cex1 :
    detect_anomalies cex1 2 = [⟨r400, 400, 3000 / 11, "equipment_wear"⟩] := by
  simp only [detect_anomalies]
  rw [if_neg (by decide), if_neg (by decide),
    if_neg (by rw [varQ_cex1]; norm_num), filter_cex1]
  simp only [List.map, meanQ_cex1, causeOf_cex1_r400,
    show powerVal cex1 r400 = 400 from rfl]
  norm_num

/-- C1 (counterexample): in the clean batch `cex1` the flagged reading
`r400` satisfies the overload rule (`load_percent = 96 > 95`), the
highest-priority rule of the claim, yet the code labels it
`equipment_wear`, because the `efficiency < 80` assignment is executed
later and overwrites the earlier `overload` label. -/
theorem C1_cause_priority_counterexample :
    (detect_anomalies cex1 2).map AnomEntry.cause = ["equipment_wear"] ∧
    95 < r400.load_percent ∧ r400.efficiency < 80 ∧
    ("equipment_wear" : String) ≠ "overload" := by
  refine ⟨?_, by norm_num [r400], by norm_num [r400], by decide⟩
  rw [detect_cex1]
  rfl

/-- C1 (amended): for every flagged reading the cause label is decided by
the LAST matching assignment in the source's write order, i.e. with the
priority `equipment_wear` (efficiency column present and efficiency < 80),
then `high_consumption` (efficiency column absent and power > mean * 1.2),
then `low_efficiency` (load < 50 and power above mean), then `overload`
(load > 95), else `unknown`. -/
theorem C1_cause_last_write (df : AFrame) (t : ℚ) (r : ARow)
    (hmem : r ∈ df.rows) (hanom : isAnomB df t r = true) :
    causeOf df t r =
      if df.has_efficiency = true ∧ r.efficiency < 80 then "equipment_wear"
      else if df.has_efficiency = false ∧ meanQ df * (12/10) < powerVal df r then
        "high_consumption"
      else if df.has_load_percent = true ∧ r.load_percent < 50 ∧
          meanQ df < powerVal df r then "low_efficiency"
      else if df.has_load_percent = true ∧ 95 < r.load_percent then "overload"
      else "unknown" := by
  have hany : anyAnomB df t = true := by
    unfold anyAnomB
    rw [List.any_eq_true]
    exact ⟨r, hmem, hanom⟩
  simp only [causeOf, hanom, hany]
  cases he : df.has_efficiency <;> cases hl : df.has_load_percent <;>
  by_cases h80 : r.efficiency < 80 <;>
  by_cases h95 : 95 < r.load_percent <;>
  by_cases h50 : r.load_percent < 50 <;>
  by_cases hm : meanQ df < powerVal df r <;>
  by_cases h12 : meanQ df * (12/10) < powerVal df r <;>
    simp [he, hl, h80, h95, h50, hm, h12]

/-- Witness for C1 at the concrete batch `cex1` and reading `r400`. -/
theorem C1_cause_last_write_witness :
    causeOf cex1 2 r400 =
      if cex1.has_efficiency = true ∧ r400.efficiency < 80 then "equipment_wear"
      else if cex1.has_efficiency = false ∧ meanQ cex1 * (12/10) < powerVal cex1 r400 then
        "high_consumption"
      else if cex1.has_load_percent = true ∧ r400.load_percent < 50 ∧
          meanQ cex1 < powerVal cex1 r400 then "low_efficiency"
      else if cex1.has_load_percent = true ∧ 95 < r400.load_percent then "overload"
      else "unknown" :=
  C1_cause_last_write cex1 2 r400 (by decide) isAnomB_cex1_r400

/-- C10: when the input batch carries an `efficiency` column, no anomaly
the detector returns is labelled `high_consumption` — that label is only
reachable through the `elif` branch taken when the column is absent. -/
theorem C10_no_high_consumption_with_efficiency (df : AFrame) (t : ℚ)
    (heff : df.has_efficiency = true) :
    ∀ e ∈ detect_anomalies df t, e.cause ≠ "high_consumption" := by
  intro e he
  unfold detect_anomalies at he
  split_ifs at he
  · simp at he
  · simp at he
  · simp at he
  · rw [List.mem_map] at he
    obtain ⟨r, hr, rfl⟩ := he
    show causeOf df t r ≠ "high_consumption"
    simp only [causeOf, heff, Bool.not_true, Bool.false_and, Bool.false_eq_true,
      if_false, ite_false]
    split_ifs <;> decide

/-- Witness for C10: the entry for `r400` with a `high_consumption` label
cannot be in the detector's output on the efficiency-carrying batch
`cex1`. -/
theorem C10_no_high_consumption_witness :
    (⟨r400, 400, 3000 / 11, "high_consumption"⟩ : AnomEntry) ∉
      detect_anomalies cex1 2 :=
  fun h => C10_no_high_consumption_with_efficiency cex1 2 rfl _ h rfl

/-- Mean of the `f5` batch, as the spec states. -/
lemma meanQ_f5 : meanQ f5 = 180 := by
  norm_num [meanQ, f5, powerVal]

/-- Sample variance of the `f5` batch: pandas `std` is the square root of
128000 / 4 = 32000, not of the population variance 25600. -/
lemma varQ_f5 : varQ f5 = 32000 := by
  norm_num [varQ, meanQ, f5, powerVal]

/-- The value 100 of `f5` is not flagged at `threshold_std = 2`. -/
lemma isAnomB_f5_100 : isAnomB f5 2 ⟨100, 0, 0, 0⟩ = false := by
  norm_num [isAnomB, stdBelow, stdAbove, meanQ, varQ, powerVal, f5]

/-- The value 500 of `f5` is not flagged at `threshold_std = 2`: it lies
below `180 + 2 * sqrt 32000 ≈ 537.8`. -/
lemma isAnomB_f5_500 : isAnomB f5 2 ⟨500, 0, 0, 0⟩ = false := by
  norm_num [isAnomB, stdBelow, stdAbove, meanQ, varQ, powerVal, f5]

/-- The detector output on `f5` is empty. -/
lemma detect_f5 : detect_anomalies f5 2 = [] := by
  simp only [detect_anomalies]
  rw [if_neg (by decide), if_neg (by decide),
    if_neg (by rw [varQ_f5]; norm_num)]
  rw [show f5.rows = [⟨100, 0, 0, 0⟩, ⟨100, 0, 0, 0⟩, ⟨100, 0, 0, 0⟩,
    ⟨100, 0, 0, 0⟩, ⟨500, 0, 0, 0⟩] from rfl]
  simp [List.filter, isAnomB_f5_100, isAnomB_f5_500]

/-- C3 (counterexample): on `power_kwh = [100,100,100,100,500]` the
standard deviation the code computes (pandas sample std, ddof = 1) is
`sqrt 32000 > 170`, not ≈ 163.4, and the upper boundary `mean + 2*std`
exceeds 520, not ≈ 507. -/
theorem C3_sigma_counterexample :
    varQ f5 = 32000 ∧
    (170 : ℝ) < Real.sqrt ((varQ f5 : ℝ)) ∧
    (520 : ℝ) < (meanQ f5 : ℝ) + 2 * Real.sqrt ((varQ f5 : ℝ)) := by
  have hs : (170 : ℝ) < Real.sqrt ((varQ f5 : ℝ)) := by
    rw [varQ_f5, Real.lt_sqrt (by norm_num)]
    norm_num
  have hcast : ((meanQ f5 : ℚ) : ℝ) = 180 := by rw [meanQ_f5]; norm_num
  exact ⟨varQ_f5, hs, by rw [hcast]; linarith⟩

/-- C3 (amended): on `power_kwh = [100,100,100,100,500]` with
`threshold_std = 2` the code computes mean 180 and sample variance 32000,
so the decision boundary `mean + 2*std = 180 + 2*sqrt 32000` lies strictly
between 537 and 538; the value 500 is below it, nothing is flagged, and
the flag for 500 is exactly the boundary test against the code's
standard deviation. -/
theorem C3_boundary_sample_std :
    meanQ f5 = 180 ∧ varQ f5 = 32000 ∧
    (537 : ℝ) < (meanQ f5 : ℝ) + 2 * Real.sqrt ((varQ f5 : ℝ)) ∧
    (meanQ f5 : ℝ) + 2 * Real.sqrt ((varQ f5 : ℝ)) < 538 ∧
    detect_anomalies f5 2 = [] ∧
    (isAnomB f5 2 ⟨500, 0, 0, 0⟩ = true ↔
      (meanQ f5 : ℝ) + 2 * Real.sqrt ((varQ f5 : ℝ)) < 500) := by
  have hlo : (178.5 : ℝ) < Real.sqrt ((varQ f5 : ℝ)) := by
    rw [varQ_f5, Real.lt_sqrt (by norm_num)]
    norm_num
  have hhi : Real.sqrt ((varQ f5 : ℝ)) < 179 := by
    rw [varQ_f5, Real.sqrt_lt' (by norm_num)]
    norm_num
  have hcast : ((meanQ f5 : ℚ) : ℝ) = 180 := by rw [meanQ_f5]; norm_num
  refine ⟨meanQ_f5, varQ_f5, by rw [hcast]; linarith, by rw [hcast]; linarith,
    detect_f5, ?_⟩
  constructor
  · intro h
    rw [isAnomB_f5_500] at h
    exact absurd h (by decide)
  · intro h
    rw [hcast] at h
    linarith

/-- C4 (counterexample): fitting on an empty history does not raise an
`InsufficientDataError` — `train_model` catches everything and returns
`False`. -/
theorem C4_train_model_counterexample :
    train_model true ⟨true, true, []⟩ = PyOutcome.returned false ∧
    train_model true ⟨true, true, []⟩ ≠ PyOutcome.raised "InsufficientDataError" := by
  constructor <;> decide

/-- C4 (amended): on an empty history (or a history missing the `ds` or
`y` column) `train_model` fails softly by returning `False`, and no
exception of any kind — in particular no `InsufficientDataError` — ever
propagates out of it; a failing external fit (e.g. fewer than 2 rows) is
caught and converted to the same `False`. -/
theorem C4_train_model_soft_failure (fit_raises : Bool) (df : TrainFrame)
    (s : String) :
    (df.rows = [] → train_model fit_raises df = PyOutcome.returned false) ∧
    train_model fit_raises df ≠ PyOutcome.raised s := by
  constructor
  · intro h
    simp [train_model, h]
  · unfold train_model
    split_ifs <;> simp

/-- Witness for C4 at the empty history. -/
theorem C4_train_model_soft_failure_witness :
    train_model false ⟨true, true, []⟩ = PyOutcome.returned false ∧
    train_model false ⟨true, true, []⟩ ≠ PyOutcome.raised "InsufficientDataError" :=
  ⟨(C4_train_model_soft_failure false ⟨true, true, []⟩ "InsufficientDataError").1 rfl,
   (C4_train_model_soft_failure false ⟨true, true, []⟩ "InsufficientDataError").2⟩

/-- C2: every row surviving `normalize_data` has `load_percent` in
`(0, 100]` and `power_kwh > 0` whenever those values are present; since the
filters run exactly when the column exists and a well-formed frame holds no
value in an absent column, no surviving row carries an out-of-range
value. -/
theorem C2_normalize_data_bounds (df : NFrame) (hwf : df.WF) :
    ∀ r ∈ (normalize_data df).rows,
      (∀ v, r.load_percent = some v → 0 < v ∧ v ≤ 100) ∧
      (∀ v, r.power_kwh = some v → 0 < v) := by
  intro r hr
  unfold normalize_data at hr
  by_cases he : df.rows.isEmpty
  · rw [if_pos he] at hr
    rw [List.isEmpty_iff.mp he] at hr
    simp at hr
  · rw [if_neg he] at hr
    by_cases hp : df.has_power_kwh = true <;> by_cases hl : df.has_load_percent = true
    · -- both columns present: all filters ran, then the map
      simp only [hp, hl, Bool.and_self, if_true, ite_true] at hr
      rw [List.mem_map] at hr
      obtain ⟨r0, hr0, rfl⟩ := hr
      rw [List.mem_filter, List.mem_filter, List.mem_filter] at hr0
      obtain ⟨⟨⟨_, hgt0⟩, h100⟩, hpow⟩ := hr0
      constructor
      · intro v hv
        simp only [] at hv
        rw [hv] at hgt0 h100
        simp only [Option.any_some, decide_eq_true_eq] at hgt0 h100
        exact ⟨hgt0, h100⟩
      · intro v hv
        simp only [] at hv
        rw [hv] at hpow
        simp only [Option.any_some, decide_eq_true_eq] at hpow
        exact hpow
    · -- power present, load column absent
      have hl' : df.has_load_percent = false := by
        cases hx : df.has_load_percent
        · rfl
        · exact absurd hx hl
      simp only [hp, hl', Bool.and_false, Bool.false_eq_true, if_false,
        ite_false, if_true, ite_true] at hr
      rw [List.mem_filter] at hr
      obtain ⟨hr1, hpow⟩ := hr
      have hrdf : r ∈ df.rows := (List.mem_filter.mp hr1).1
      constructor
      · intro v hv
        have := ((hwf r hrdf).2.2.1) hl'
        rw [this] at hv
        exact absurd hv (by simp)
      · intro v hv
        rw [hv] at hpow
        simp only [Option.any_some, decide_eq_true_eq] at hpow
        exact hpow
    · -- load present, power column absent
      have hp' : df.has_power_kwh = false := by
        cases hx : df.has_power_kwh
        · rfl
        · exact absurd hx hp
      simp only [hp', hl, Bool.false_and, Bool.false_eq_true, if_false,
        ite_false, if_true, ite_true] at hr
      rw [List.mem_filter, List.mem_filter] at hr
      obtain ⟨⟨hr1, hgt0⟩, h100⟩ := hr
      have hrdf : r ∈ df.rows := (List.mem_filter.mp hr1).1
      constructor
      · intro v hv
        rw [hv] at hgt0 h100
        simp only [Option.any_some, decide_eq_true_eq] at hgt0 h100
        exact ⟨hgt0, h100⟩
      · intro v hv
        have := ((hwf r hrdf).2.1) hp'
        rw [this] at hv
        exact absurd hv (by simp)
    · -- neither column present: only dropna ran
      have hp' : df.has_power_kwh = false := by
        cases hx : df.has_power_kwh
        · rfl
        · exact absurd hx hp
      have hl' : df.has_load_percent = false := by
        cases hx : df.has_load_percent
        · rfl
        · exact absurd hx hl
      simp only [hp', hl', Bool.false_and, Bool.false_eq_true, if_false,
        ite_false] at hr
      have hrdf : r ∈ df.rows := (List.mem_filter.mp hr).1
      constructor
      · intro v hv
        have := ((hwf r hrdf).2.2.1) hl'
        rw [this] at hv
        exact absurd hv (by simp)
      · intro v hv
        have := ((hwf r hrdf).2.1) hp'
        rw [this] at hv
        exact absurd hv (by simp)

/-- An input batch with one well-formed row, one out-of-range load, one
non-positive power and one missing power value. -/
def exDf : NFrame :=
  ⟨true, true, true, true, true, false, false,
   [⟨some 1, some 100, some 50, some 20, some 1, none, none⟩,
    ⟨some 2, some 100, some 150, some 20, some 1, none, none⟩,
    ⟨some 3, some 0, some 50, some 20, some 1, none, none⟩,
    ⟨some 4, none, some 50, some 20, some 1, none, none⟩]⟩

/-- The row of `exDf` whose `load_percent` is 150. -/
def rbad : NRow := ⟨some 2, some 100, some 150, some 20, some 1, none, none⟩

/-- Witness for C2: the out-of-range row of `exDf` is in the input but
cannot be in the normalized output. -/
theorem C2_normalize_data_bounds_witness :
    rbad ∈ exDf.rows ∧ rbad ∉ (normalize_data exDf).rows :=
  ⟨by decide,
   fun h => absurd
     ((C2_normalize_data_bounds exDf (by unfold NFrame.WF; decide) rbad h).1
       150 rfl).2
     (by norm_num)⟩

/-- Window with `power_kwh = [1000, 2000]` and `load_percent = [50, 50]`
(efficiencies as the Cleaner would derive them). -/
def enpiDb : Database := ⟨[⟨1000, 50, 5⟩, ⟨2000, 50, 5/2⟩], [], []⟩

/-- An empty window. -/
def db0 : Database := ⟨[], [], []⟩

/-- C7: `calculate_enpi` returns the empty result on a window with zero
rows; on a nonempty window with positive average load the returned `enpi`
is `avg(power_kwh) / avg(load_percent)` (at the 4-decimal precision the
code reports); in particular the spec's example window yields
`EnPI = 1500 / 50 = 30`. -/
theorem C7_calculate_enpi (db : Database) (period : ℕ) :
    (db.clean_data = [] → calculate_enpi db period = none) ∧
    (db.clean_data ≠ [] → 0 < avg_load_percent db →
      Option.map EnpiResult.enpi (calculate_enpi db period) =
        some (roundTo 4 (avg_power_kwh db / avg_load_percent db))) ∧
    calculate_enpi enpiDb 30 =
      some ⟨30, 63/2, -119/25, 30, 1500, 50⟩ := by
  refine ⟨?_, ?_, ?_⟩
  · intro h
    simp [calculate_enpi, h]
  · intro hne hpos
    have he : ¬ db.clean_data.isEmpty = true := by
      simpa [List.isEmpty_iff] using hne
    simp only [calculate_enpi, if_neg he, if_pos hpos, ite_true, ite_false,
      Option.map_some']
  · have h1 : avg_power_kwh enpiDb = 1500 := by
      norm_num [avg_power_kwh, enpiDb]
    have h2 : avg_load_percent enpiDb = 50 := by
      norm_num [avg_load_percent, enpiDb]
    simp only [calculate_enpi, if_neg (show ¬ enpiDb.clean_data.isEmpty = true by decide),
      h1, h2]
    norm_num [roundTo, pyRoundInt, EnpiResult.mk.injEq]

/-- Witness for C7 at the example window and the empty window. -/
theorem C7_calculate_enpi_witness :
    calculate_enpi db0 30 = none ∧
    Option.map EnpiResult.enpi (calculate_enpi enpiDb 30) =
      some (roundTo 4 (avg_power_kwh enpiDb / avg_load_percent enpiDb)) :=
  ⟨(C7_calculate_enpi db0 30).1 rfl,
   (C7_calculate_enpi enpiDb 30).2.1 (by decide)
     (by norm_num [avg_load_percent, enpiDb])⟩

/-- Excess-consumption data with the spec example's `excess_kwh = 100`. -/
def ex100 : ExcessResult := ⟨0, 100, 0, 0, 30⟩

/-- Excess-consumption data with a negative `excess_kwh`. -/
def exNeg : ExcessResult := ⟨0, -5, 0, 0, 30⟩

/-- C8 (counterexample): with `excess_kwh = -5` the claim's annualized
value `max(excess, 0) * p/100 * 365/period = 0` is not returned — the zero
branch omits the annualized fields altogether. -/
theorem C8_economic_effect_counterexample :
    (economic_effect_core (some exNeg) 5 2 30).annual_savings_kwh = none ∧
    (economic_effect_core (some exNeg) 5 2 30).annual_savings_kwh ≠
      some (roundTo 2 (max exNeg.excess_kwh 0 * (2 / 100) * (365 / (30 : ℚ)))) := by
  have h : (economic_effect_core (some exNeg) 5 2 30).annual_savings_kwh = none := by
    norm_num [economic_effect_core, exNeg]
  exact ⟨h, by rw [h]; simp⟩

/-- C8 (amended): the economic effect returns
`savings_kwh = max(excess_kwh, 0) * optimization_percent/100` and
`savings_rub = savings_kwh * price`, rounded to 2 decimals; the annualized
values (`* 365/period_days`, rounded to 2 decimals) are returned exactly
when `excess_kwh > 0` and are omitted when `excess_kwh ≤ 0` or the excess
data is missing. -/
theorem C8_economic_effect_formulas (d : ExcessResult) (price p : ℚ)
    (period : ℕ) (_hp : 0 < period) :
    (economic_effect_core (some d) price p period).savings_kwh =
      roundTo 2 (max d.excess_kwh 0 * (p / 100)) ∧
    (economic_effect_core (some d) price p period).savings_rub =
      roundTo 2 (max d.excess_kwh 0 * (p / 100) * price) ∧
    (0 < d.excess_kwh →
      (economic_effect_core (some d) price p period).annual_savings_kwh =
        some (roundTo 2 (d.excess_kwh * (p / 100) * (365 / (period : ℚ)))) ∧
      (economic_effect_core (some d) price p period).annual_savings_rub =
        some (roundTo 2 (d.excess_kwh * (p / 100) * (365 / (period : ℚ)) * price))) ∧
    (d.excess_kwh ≤ 0 →
      (economic_effect_core (some d) price p period).annual_savings_kwh = none ∧
      (economic_effect_core (some d) price p period).annual_savings_rub = none ∧
      (economic_effect_core (some d) price p period).energy_price_per_kwh = none) := by
  by_cases hex : d.excess_kwh ≤ 0
  · have hmax : max d.excess_kwh 0 = 0 := max_eq_right hex
    simp only [economic_effect_core, if_pos hex, hmax]
    refine ⟨by rw [zero_mul, roundTo_zero], by rw [zero_mul, zero_mul, roundTo_zero],
      fun h0 => absurd h0 (by linarith), fun _ => ⟨trivial, trivial, trivial⟩⟩
  · push_neg at hex
    have hmax : max d.excess_kwh 0 = d.excess_kwh := max_eq_left hex.le
    simp only [economic_effect_core, if_neg (not_le.mpr hex), hmax]
    exact ⟨trivial, trivial, fun _ => ⟨trivial, trivial⟩,
      fun h0 => absurd h0 (not_le.mpr hex)⟩

/-- Witness for C8 at the spec's example
(`excess = 100`, `p = 2 %`, `price = 5`, `period = 30`): savings 2 kWh and
10 rub, annualized 24.33 kWh. -/
theorem C8_economic_effect_formulas_witness :
    (economic_effect_core (some ex100) 5 2 30).savings_kwh = 2 ∧
    (economic_effect_core (some ex100) 5 2 30).savings_rub = 10 ∧
    (economic_effect_core (some ex100) 5 2 30).annual_savings_kwh =
      some (2433 / 100) := by
  obtain ⟨hs, hr, hann, -⟩ := C8_economic_effect_formulas ex100 5 2 30 (by norm_num)
  obtain ⟨ha, -⟩ := hann (by norm_num [ex100])
  refine ⟨?_, ?_, ?_⟩
  · rw [hs]
    norm_num [ex100, roundTo, pyRoundInt]
  · rw [hr]
    norm_num [ex100, roundTo, pyRoundInt]
  · rw [ha]
    norm_num [ex100, roundTo, pyRoundInt]

/-- C5 (counterexample): two `get_all_kpis` calls over the same stored
data and parameters differ — the returned dictionary embeds the wall-clock
`timestamp` of the call. -/
theorem C5_get_all_kpis_not_identical :
    get_all_kpis db0 5 30 1 0 ≠ get_all_kpis db0 5 30 1 1 := by
  intro h
  have ht := congrArg AllKpis.timestamp h
  simp only [get_all_kpis] at ht
  exact absurd ht (by norm_num)

/-- C5 (amended): every KPI computation is a pure function of the stored
window data and the parameters — two calls agree on all four KPI
dictionaries and on the period, and the full `get_all_kpis` values agree
up to the `timestamp` field, which records the wall-clock call time. -/
theorem C5_kpi_pure_except_timestamp (db : Database) (price : ℚ)
    (period : ℕ) (opt : ℚ) (t1 t2 : ℚ) :
    get_all_kpis db price period opt t1 =
      { get_all_kpis db price period opt t2 with timestamp := t1 } := rfl

/-- C9: for tokens that pass signature and expiry verification and carry a
subject claim, `get_current_user` builds the returned user from the store
row it re-reads at verification time: any two such tokens for the same
username produce the same user, whatever role claims they embed, and the
returned role is the one currently in the store. -/
theorem C9_role_read_from_store (secret : String) (users : List UserRow)
    (now : ℤ) (t1 t2 : JwtToken) (u : String) (row : UserRow)
    (hk1 : t1.key = secret) (he1 : now < t1.payload.exp)
    (hk2 : t2.key = secret) (he2 : now < t2.payload.exp)
    (hs1 : t1.payload.sub = some u) (hs2 : t2.payload.sub = some u)
    (hrow : get_user_from_db users u = some row) :
    get_current_user secret users now t1 =
      some ⟨row.username, row.email, roleOf row⟩ ∧
    get_current_user secret users now t1 = get_current_user secret users now t2 := by
  have h1 : get_current_user secret users now t1 =
      some ⟨row.username, row.email, roleOf row⟩ := by
    simp only [get_current_user, jwt_decode]
    rw [if_pos (by simp [hk1, he1])]
    simp only [hs1, hrow]
  have h2 : get_current_user secret users now t2 =
      some ⟨row.username, row.email, roleOf row⟩ := by
    simp only [get_current_user, jwt_decode]
    rw [if_pos (by simp [hk2, he2])]
    simp only [hs2, hrow]
  exact ⟨h1, h1.trans h2.symm⟩

/-- Row of the demonstration users store: alice currently has role
`admin`. -/
def demoRow : UserRow := ⟨"alice", some "alice@example.com", "h1", some "admin"⟩

/-- A valid token for alice whose embedded role claim says `user`. -/
def demoTok1 : JwtToken := ⟨⟨some "alice", some "user", 100⟩, "s"⟩

/-- A valid token for alice whose embedded role claim says `admin`. -/
def demoTok2 : JwtToken := ⟨⟨some "alice", some "admin", 100⟩, "s"⟩

/-- Witness for C9: two valid tokens for alice differing only in the
embedded role claim authenticate to the same user, whose role is the one
stored now. -/
theorem C9_role_read_from_store_witness :
    get_current_user "s" [demoRow] 0 demoTok1 =
      some ⟨demoRow.username, demoRow.email, roleOf demoRow⟩ ∧
    get_current_user "s" [demoRow] 0 demoTok1 =
      get_current_user "s" [demoRow] 0 demoTok2 :=
  C9_role_read_from_store "s" [demoRow] 0 demoTok1 demoTok2 "alice" demoRow
    rfl (by decide) rfl (by decide) rfl rfl (by decide)
